import Mathlib

/-!
Verification of the Venda Hoje checkout API (src/api/app.py), a Flask
gateway that validates checkout requests, forwards them to the GhostPay
PIX processor, and normalizes responses.  The Python handlers are embedded
shallowly: JSON scalars that matter to the handlers become the `JVal`
type, request and upstream bodies become structures of optional fields
(mirroring dict.get), and each route handler becomes a pure function from
its configuration, clock, request body and (abstract) upstream outcome to
the response it would serialize, paired with a flag recording whether the
outbound HTTP call to the processor was executed.
-/

namespace VendaHoje

/-- A JSON scalar as it reaches the handler: the `amount` field of the
request (and of the processor response) can be an integer or a string;
comparing a string with an int raises in Python, which the embedding
tracks via `pyLtInt`. -/
inductive JVal where
  | jint (n : Int)
  | jstr (s : String)
deriving Repr, DecidableEq

/-- Python truthiness of an optional string (dict.get result): None and
the empty string are falsy. -/
def pyTruthyStr : Option String → Bool
  | none => false
  | some s => !s.isEmpty

/-- Python `a or b` specialized to optional strings: keeps `a` when it is
truthy, otherwise evaluates to `b`. -/
def pyOrStr (a b : Option String) : Option String :=
  if pyTruthyStr a then a else b

/-- Python `v < k` where `v` is a JSON scalar and `k` an int literal:
defined for ints, raises TypeError for strings (message paraphrased,
CPython wording). -/
def pyLtInt (v : JVal) (k : Int) : Except String Bool :=
  match v with
  | .jint n => .ok (decide (n < k))
  | .jstr _ => .error "comparison not supported between instances of str and int"

/-- Python slicing s[:n] — the first n characters of s. -/
def pySlice (s : String) (n : Nat) : String :=
  String.mk (s.toList.take n)

/-- PRODUCT_PRICE from app.py (minor units, R$ 8.90). -/
def PRODUCT_PRICE : Int := 890

/-- PRODUCT_NAME from app.py. -/
def PRODUCT_NAME : String := "Mentoria Venda Hoje - Acesso Vitalício"

/-- clean_document from app.py: a truthy document is stripped to its
digit characters by re.sub; a falsy one (None or empty string) is
replaced by the fixed placeholder. -/
def clean_document (document : Option String) : String :=
  match document with
  | some s => if s = "" then "00000000191" else String.mk (s.toList.filter Char.isDigit)
  | none => "00000000191"

/-- create_test_qr_code from app.py: the fixed example PIX BR Code. -/
def create_test_qr_code : String :=
  "00020101021226920014br.gov.bcb.pix2560api.ghostpay.io/qrcode/example5204000053039865802BR5913VENDAS+HOJE6009SAO+PAULO62070503***6304E2CA"

/-- The customer object of an inbound request; fields are optional
because the handler reads them with customer.get. -/
structure Customer where
  name : Option String
  email : Option String
  phone : Option String
  document : Option String
deriving Repr, DecidableEq

/-- The parsed JSON body of POST /create-payment; customer is present
exactly when the key customer is in the dict. -/
structure PaymentRequest where
  customer : Option Customer
  amount : Option JVal
  description : Option String
deriving Repr, DecidableEq

/-- The pix object of a GhostPay response; the three candidate QR keys
read by the handler. -/
structure PixData where
  qrcode : Option String
  qrCode : Option String
  text : Option String
deriving Repr, DecidableEq

/-- A parsed GhostPay JSON body, restricted to the keys the handlers
read (id, status, amount, paidAt, pix). -/
structure GhostResponse where
  id : Option String
  status : Option String
  amount : Option JVal
  paidAt : Option String
  pix : Option PixData
deriving Repr, DecidableEq

/-- Outcome of the outbound requests.post / requests.get call: either the
library raised (timeout, connection error), or an HTTP response arrived
with a status code, raw body text, and the result of parsing it as JSON
(response.json, which can itself raise). -/
inductive UpstreamResult where
  | exn (msg : String)
  | resp (statusCode : Nat) (text : String) (jsonBody : Except String GhostResponse)
deriving Repr

/-- The JSON response a handler serializes, flattened to the fields the
handlers ever emit, plus the HTTP status code. Absent keys are none /
false. -/
structure ApiResponse where
  httpStatus : Nat
  success : Bool
  error : Bool
  testMode : Bool
  message : Option String
  txId : Option String
  txStatus : Option String
  txAmount : Option JVal
  qr_code : Option String
  code : Option String
  copy_paste : Option String
  details : Option String
  checkStatus : Option String
  paidAt : Option String
  transaction : Option GhostResponse
deriving Repr, DecidableEq

/-- A response with every optional key absent; handlers override the
fields they actually emit. -/
def baseResponse : ApiResponse :=
  { httpStatus := 200, success := false, error := false, testMode := false,
    message := none, txId := none, txStatus := none, txAmount := none,
    qr_code := none, code := none, copy_paste := none, details := none,
    checkStatus := none, paidAt := none, transaction := none }

/-- create_payment from app.py. Arguments: basic_auth is the derived
authorization token (None exactly when GHOSTPAY_SECRET_KEY is unset),
now is int(time.time()), body is the parsed request JSON (None when
request.get_json is falsy), upstream is the outcome the processor call
would have. Returns the serialized response and whether requests.post
was executed. -/
def create_payment (basic_auth : Option String) (now : Nat)
    (body : Option PaymentRequest) (upstream : UpstreamResult) :
    ApiResponse × Bool :=
  match basic_auth with
  | none =>
    let qr := create_test_qr_code
    ({ baseResponse with
        httpStatus := 200, success := true, testMode := true,
        message := some "Modo de teste - Configure as chaves no Render",
        txId := some ("test_" ++ toString now),
        txStatus := some "pending",
        txAmount := some (JVal.jint PRODUCT_PRICE),
        qr_code := some qr, code := some qr, copy_paste := some qr }, false)
  | some _ =>
    match body with
    | none =>
      ({ baseResponse with
          httpStatus := 400, error := true,
          message := some "Dados não recebidos" }, false)
    | some data =>
      match data.customer with
      | none =>
        ({ baseResponse with
            httpStatus := 400, error := true,
            message := some "Estrutura de dados inválida" }, false)
      | some customer =>
        let amount := data.amount.getD (JVal.jint PRODUCT_PRICE)
        if !(pyTruthyStr customer.name) || !(pyTruthyStr customer.email) then
          ({ baseResponse with
              httpStatus := 400, error := true,
              message := some "Nome e email são obrigatórios" }, false)
        else
          match pyLtInt amount 100 with
          | .error e =>
            ({ baseResponse with
                httpStatus := 500, error := true,
                message := some ("Erro interno: " ++ e) }, false)
          | .ok true =>
            ({ baseResponse with
                httpStatus := 400, error := true,
                message := some "Valor mínimo é R$ 1,00" }, false)
          | .ok false =>
            match upstream with
            | .exn msg =>
              ({ baseResponse with
                  httpStatus := 500, error := true,
                  message := some ("Erro interno: " ++ msg) }, true)
            | .resp st text jsonBody =>
              if st == 200 || st == 201 then
                match jsonBody with
                | .error e =>
                  ({ baseResponse with
                      httpStatus := 500, error := true,
                      message := some ("Erro interno: " ++ e) }, true)
                | .ok response_data =>
                  let pix_data := response_data.pix.getD ⟨none, none, none⟩
                  let qr := pyOrStr (pyOrStr pix_data.qrcode pix_data.qrCode) pix_data.text
                  if pyTruthyStr qr then
                    ({ baseResponse with
                        httpStatus := 200, success := true,
                        txId := response_data.id,
                        txStatus := response_data.status,
                        txAmount := response_data.amount,
                        qr_code := qr, code := qr, copy_paste := qr }, true)
                  else
                    ({ baseResponse with
                        httpStatus := 500, error := true,
                        message := some "QR Code não recebido" }, true)
              else
                ({ baseResponse with
                    httpStatus := st, error := true,
                    message := some ("Erro na API GhostPay: " ++ toString st),
                    details := some (if text.isEmpty then "Sem resposta" else pySlice text 200) },
                 true)

/-- check_payment from app.py. Same conventions as create_payment; the
transaction id only feeds the upstream URL, so the abstract upstream
outcome already accounts for it. -/
def check_payment (basic_auth : Option String) (_transaction_id : String)
    (upstream : UpstreamResult) : ApiResponse × Bool :=
  match basic_auth with
  | none =>
    ({ baseResponse with
        httpStatus := 200, success := true, testMode := true,
        checkStatus := some "paid",
        message := some "Modo de teste - Pagamento simulado" }, false)
  | some _ =>
    match upstream with
    | .exn msg =>
      ({ baseResponse with
          httpStatus := 500, error := true,
          message := some ("Erro: " ++ msg) }, true)
    | .resp st _text jsonBody =>
      if st == 200 then
        match jsonBody with
        | .error e =>
          ({ baseResponse with
              httpStatus := 500, error := true,
              message := some ("Erro: " ++ e) }, true)
        | .ok data =>
          ({ baseResponse with
              httpStatus := 200, success := true,
              checkStatus := data.status, paidAt := data.paidAt,
              transaction := some data }, true)
      else
        ({ baseResponse with
            httpStatus := 404, error := true,
            message := some "Transação não encontrada" }, true)

/-- Spec-side description of the QR extraction (section 3 of the spec):
candidates tried in order, first non-empty value wins.  Stated
separately from the pyOrStr chain of create_payment so the two can be
compared. -/
def specFirstNonEmpty : List (Option String) → Option String
  | [] => none
  | none :: rest => specFirstNonEmpty rest
  | some s :: rest => if s.isEmpty then specFirstNonEmpty rest else some s

/-- An all-absent GhostPay body, for concrete instantiations. -/
def emptyGhost : GhostResponse :=
  { id := none, status := none, amount := none, paidAt := none, pix := none }

/-- The customer of the spec example (name Ana, email a@x.com). -/
def anaCustomer : Customer :=
  { name := some "Ana", email := some "a@x.com", phone := none, document := none }

/-- A structurally valid request carrying amount 500. -/
def anaRequest500 : PaymentRequest :=
  { customer := some anaCustomer, amount := some (JVal.jint 500), description := none }

/-- A structurally valid request with no amount field. -/
def anaRequestNoAmount : PaymentRequest :=
  { customer := some anaCustomer, amount := none, description := none }

/-- A structurally valid request carrying amount 890. -/
def anaRequest890 : PaymentRequest :=
  { customer := some anaCustomer, amount := some (JVal.jint 890), description := none }

/-- A structurally valid request whose amount is the JSON string "890". -/
def strAmountRequest : PaymentRequest :=
  { customer := some anaCustomer, amount := some (JVal.jstr "890"), description := none }

/-- A request whose customer object lacks the name field. -/
def noNameCustomer : Customer :=
  { name := none, email := some "a@x.com", phone := none, document := none }

/-- A request body whose customer lacks a name. -/
def noNameRequest : PaymentRequest :=
  { customer := some noNameCustomer, amount := none, description := none }

/-- A structurally valid request carrying amount 50 (below the minimum). -/
def lowAmountRequest : PaymentRequest :=
  { customer := some anaCustomer, amount := some (JVal.jint 50), description := none }

/-- Claim C1 counterexample: in test mode, a request that supplies amount 500
still gets transaction.amount 890 (the default product price), so the requested
amount is not returned. -/
theorem c1_counterexample :
    (create_payment none 0 (some anaRequest500) (UpstreamResult.exn "")).1.txAmount
        = some (JVal.jint 890) ∧
    (create_payment none 0 (some anaRequest500) (UpstreamResult.exn "")).1.txAmount
        ≠ some (JVal.jint 500) := by
  exact ⟨rfl, by decide⟩

/-- Claim C1 (amended): in test mode create-payment answers before reading the
request body, so transaction.amount is always the default product price 890
whether or not the request supplies an amount; the spec example with amount 890
therefore sees 890 only because it coincides with the default. The fixed
example QR payload is returned alongside. -/
theorem c1_test_mode_amount_is_default (now : Nat) (body : Option PaymentRequest)
    (upstream : UpstreamResult) :
    (create_payment none now body upstream).1.txAmount = some (JVal.jint 890) ∧
    (create_payment none now body upstream).1.qr_code = some create_test_qr_code := by
  exact ⟨rfl, rfl⟩

/-- Claim C2 counterexample: clean_document can return a blank string: the
present, non-empty document "abc" has no digit characters and is reduced to
the empty string rather than the placeholder. -/
theorem c2_counterexample : clean_document (some "abc") = "" := by decide

/-- Claim C2 (amended): clean_document reduces a present non-empty document to
its digit characters - which leaves a blank string when the document contains
no digits - and substitutes the fixed 11-digit placeholder exactly when the
document is absent or empty. -/
theorem c2_clean_document_behavior :
    (∀ s : String, s ≠ "" →
        clean_document (some s) = String.mk (s.toList.filter Char.isDigit)) ∧
    clean_document none = "00000000191" ∧
    clean_document (some "") = "00000000191" := by
  refine ⟨fun s hs => ?_, rfl, rfl⟩
  simp [clean_document, hs]

/-- Claim C2 witness: the amended theorem evaluated on the mixed input 12a3b,
whose digits are 123. -/
theorem c2_clean_document_behavior_witness :
    clean_document (some "12a3b") = String.mk ("12a3b".toList.filter Char.isDigit) :=
  c2_clean_document_behavior.1 "12a3b" (by decide)

/-- Claim C7: clean_document is idempotent on clean inputs: a non-empty
all-digit string is returned unchanged, and an absent or empty document yields
the fixed 11-digit placeholder. -/
theorem c7_clean_document_idempotent :
    (∀ s : String, s ≠ "" → (∀ c ∈ s.toList, c.isDigit) →
        clean_document (some s) = s) ∧
    clean_document none = "00000000191" ∧
    clean_document (some "") = "00000000191" := by
  refine ⟨fun s hs hd => ?_, rfl, rfl⟩
  obtain ⟨data⟩ := s
  simp only [clean_document, if_neg hs]
  rw [List.filter_eq_self.mpr hd]
  rfl

/-- Claim C7 witness: the theorem evaluated on the all-digit string 12345. -/
theorem c7_clean_document_idempotent_witness :
    clean_document (some "12345") = "12345" :=
  c7_clean_document_idempotent.1 "12345" (by decide) (by decide)

/-- Claim C4: with no credentials configured, create-payment always answers
200 with success and test_mode set, a transaction id beginning with the
characters test_, and the outbound-call flag false: the processor is never
contacted, whatever the body or the would-be upstream outcome. -/
theorem c4_test_mode_synthetic (now : Nat) (body : Option PaymentRequest)
    (upstream : UpstreamResult) :
    (create_payment none now body upstream).1.httpStatus = 200 ∧
    (create_payment none now body upstream).1.success = true ∧
    (create_payment none now body upstream).1.testMode = true ∧
    (∃ rest, (create_payment none now body upstream).1.txId = some ("test_" ++ rest)) ∧
    (create_payment none now body upstream).2 = false := by
  exact ⟨rfl, rfl, rfl, ⟨toString now, rfl⟩, rfl⟩

/-- Claim C3 counterexample: in test mode (one of the modes the claim
quantifies over), a request whose customer lacks a name is answered 200 with
no error flag, because the synthetic-success branch runs before validation. -/
theorem c3_counterexample :
    (create_payment none 0 (some noNameRequest) (UpstreamResult.exn "")).1.httpStatus = 200 ∧
    (create_payment none 0 (some noNameRequest) (UpstreamResult.exn "")).1.error = false := by
  exact ⟨rfl, rfl⟩

/-- Claim C3 (amended): with credentials configured, every create-payment
request whose body is missing, whose customer object is missing, or whose
customer.name or customer.email is absent or empty, is answered 400 with the
error flag set. In test mode validation never runs. -/
theorem c3_missing_fields_400 (tok : String) (now : Nat)
    (body : Option PaymentRequest) (upstream : UpstreamResult)
    (h : body = none ∨
         ∃ data, body = some data ∧
           (data.customer = none ∨
            ∃ c, data.customer = some c ∧
              (pyTruthyStr c.name = false ∨ pyTruthyStr c.email = false))) :
    (create_payment (some tok) now body upstream).1.httpStatus = 400 ∧
    (create_payment (some tok) now body upstream).1.error = true := by
  rcases h with h | ⟨data, hb, h⟩
  · subst h
    exact ⟨rfl, rfl⟩
  · subst hb
    rcases h with h | ⟨c, hc, h⟩
    · simp [create_payment, h]
    · rcases h with h | h <;> simp [create_payment, hc, h]

/-- Claim C3 witness: the amended theorem evaluated with credentials on the
request whose customer lacks a name. -/
theorem c3_missing_fields_400_witness :
    (create_payment (some "tk") 0 (some noNameRequest) (UpstreamResult.exn "")).1.httpStatus = 400 ∧
    (create_payment (some "tk") 0 (some noNameRequest) (UpstreamResult.exn "")).1.error = true :=
  c3_missing_fields_400 "tk" 0 (some noNameRequest) (UpstreamResult.exn "")
    (Or.inr ⟨noNameRequest, rfl, Or.inr ⟨noNameCustomer, rfl, Or.inl rfl⟩⟩)

/-- Claim C5 counterexample: in test mode (one of the modes the claim
quantifies over), a request with amount 50 is answered 200, not 400, because
the synthetic-success branch runs before the minimum-amount check. -/
theorem c5_counterexample :
    (create_payment none 0 (some lowAmountRequest) (UpstreamResult.exn "")).1.httpStatus = 200 ∧
    (create_payment none 0 (some lowAmountRequest) (UpstreamResult.exn "")).1.error = false := by
  exact ⟨rfl, rfl⟩

/-- Claim C5 (amended): with credentials configured, every request carrying an
integer amount below 100 is answered 400 - whether or not the name and email
fields are valid - and the outbound call to the processor is never made, so
the minimum-amount check precedes any forwarding. In test mode the amount is
ignored and synthetic success is returned instead. -/
theorem c5_low_amount_400 (tok : String) (now : Nat) (data : PaymentRequest)
    (c : Customer) (n : Int) (upstream : UpstreamResult)
    (hc : data.customer = some c)
    (ha : data.amount = some (JVal.jint n)) (hn : n < 100) :
    (create_payment (some tok) now (some data) upstream).1.httpStatus = 400 ∧
    (create_payment (some tok) now (some data) upstream).2 = false := by
  by_cases hne : (!(pyTruthyStr c.name) || !(pyTruthyStr c.email)) = true
  · simp [create_payment, hc, ha, hne]
  · simp [create_payment, hc, ha, hne, pyLtInt, decide_eq_true hn]

/-- Claim C5 witness: the amended theorem evaluated with credentials on the
valid-customer request with amount 50. -/
theorem c5_low_amount_400_witness :
    (create_payment (some "tk") 0 (some lowAmountRequest) (UpstreamResult.exn "")).1.httpStatus = 400 ∧
    (create_payment (some "tk") 0 (some lowAmountRequest) (UpstreamResult.exn "")).2 = false :=
  c5_low_amount_400 "tk" 0 lowAmountRequest anaCustomer 50 (UpstreamResult.exn "")
    rfl rfl (by decide)

/-- Claim C10: with credentials configured and a structurally valid customer,
an amount that is a JSON string makes the comparison with 100 raise, so the
generic handler answers 500 (not 400) with the internal-error message built
from the TypeError text, and the processor is never contacted. -/
theorem c10_incomparable_amount_500 (tok : String) (now : Nat)
    (data : PaymentRequest) (c : Customer) (s : String) (upstream : UpstreamResult)
    (hc : data.customer = some c)
    (hname : pyTruthyStr c.name = true) (hemail : pyTruthyStr c.email = true)
    (ha : data.amount = some (JVal.jstr s)) :
    (create_payment (some tok) now (some data) upstream).1.httpStatus = 500 ∧
    (create_payment (some tok) now (some data) upstream).1.error = true ∧
    (create_payment (some tok) now (some data) upstream).1.httpStatus ≠ 400 ∧
    (create_payment (some tok) now (some data) upstream).1.message =
      some ("Erro interno: comparison not supported between instances of str and int") ∧
    (create_payment (some tok) now (some data) upstream).2 = false := by
  simp [create_payment, hc, hname, hemail, ha, pyLtInt]

/-- Claim C10 witness: the theorem evaluated with credentials on the request
whose amount is the JSON string 890. -/
theorem c10_incomparable_amount_500_witness :
    (create_payment (some "tk") 0 (some strAmountRequest) (UpstreamResult.exn "")).1.httpStatus = 500 ∧
    (create_payment (some "tk") 0 (some strAmountRequest) (UpstreamResult.exn "")).1.error = true ∧
    (create_payment (some "tk") 0 (some strAmountRequest) (UpstreamResult.exn "")).1.httpStatus ≠ 400 ∧
    (create_payment (some "tk") 0 (some strAmountRequest) (UpstreamResult.exn "")).1.message =
      some ("Erro interno: comparison not supported between instances of str and int") ∧
    (create_payment (some "tk") 0 (some strAmountRequest) (UpstreamResult.exn "")).2 = false :=
  c10_incomparable_amount_500 "tk" 0 strAmountRequest anaCustomer "890"
    (UpstreamResult.exn "") rfl rfl rfl rfl

/-- Python slicing never yields more than the requested number of characters. -/
theorem pySlice_length_le (s : String) (n : Nat) : (pySlice s n).length ≤ n := by
  show (s.toList.take n).length ≤ n
  simp [List.length_take]

/-- The pyOrStr chain of create_payment agrees with the spec-side
first-non-empty selection whenever the latter selects a value, and the
selected value is never empty. -/
theorem pyChain_eq_spec (p : PixData) (s : String)
    (h : specFirstNonEmpty [p.qrcode, p.qrCode, p.text] = some s) :
    pyOrStr (pyOrStr p.qrcode p.qrCode) p.text = some s ∧ s.isEmpty = false := by
  rcases p with ⟨a, b, c⟩
  rcases a with _ | a <;> rcases b with _ | b <;> rcases c with _ | c <;>
    simp only [specFirstNonEmpty] at h <;>
    (try split_ifs at h) <;>
    simp_all [pyOrStr, pyTruthyStr]

/-- Claim C6: in the normalization of a successful processor response, the qr
value is the first non-empty among the keys qrcode, qrCode, text in that
order (so qrcode wins any tie), and it is replicated under the aliases
qr_code, code and copy_paste of the returned pix object. -/
theorem c6_qr_priority (tok : String) (now : Nat) (data : PaymentRequest)
    (c : Customer) (n : Int) (st : Nat) (text : String) (rd : GhostResponse)
    (p : PixData) (s : String)
    (hc : data.customer = some c)
    (hname : pyTruthyStr c.name = true) (hemail : pyTruthyStr c.email = true)
    (ha : data.amount = some (JVal.jint n)) (h100 : ¬ n < 100)
    (hst : st = 200 ∨ st = 201)
    (hp : rd.pix = some p)
    (hq : specFirstNonEmpty [p.qrcode, p.qrCode, p.text] = some s) :
    (create_payment (some tok) now (some data)
        (UpstreamResult.resp st text (Except.ok rd))).1.qr_code = some s ∧
    (create_payment (some tok) now (some data)
        (UpstreamResult.resp st text (Except.ok rd))).1.code = some s ∧
    (create_payment (some tok) now (some data)
        (UpstreamResult.resp st text (Except.ok rd))).1.copy_paste = some s ∧
    (create_payment (some tok) now (some data)
        (UpstreamResult.resp st text (Except.ok rd))).1.success = true := by
  obtain ⟨hchain, hne⟩ := pyChain_eq_spec p s hq
  have hqt : pyTruthyStr (some s) = true := by
    simp [pyTruthyStr, hne]
  rcases hst with hst | hst <;> subst hst <;>
    simp [create_payment, hc, hname, hemail, ha, pyLtInt,
      decide_eq_false h100, hp, hchain, hqt]

/-- Claim C6 witness: the theorem evaluated on a processor body whose pix
object carries qrcode QA and qrCode QB: QA is selected and replicated. -/
theorem c6_qr_priority_witness :
    (create_payment (some "tk") 0 (some anaRequest890)
        (UpstreamResult.resp 200 ""
          (Except.ok { emptyGhost with
              pix := some { qrcode := some "QA", qrCode := some "QB", text := none } }))).1.qr_code
        = some "QA" ∧
    (create_payment (some "tk") 0 (some anaRequest890)
        (UpstreamResult.resp 200 ""
          (Except.ok { emptyGhost with
              pix := some { qrcode := some "QA", qrCode := some "QB", text := none } }))).1.code
        = some "QA" ∧
    (create_payment (some "tk") 0 (some anaRequest890)
        (UpstreamResult.resp 200 ""
          (Except.ok { emptyGhost with
              pix := some { qrcode := some "QA", qrCode := some "QB", text := none } }))).1.copy_paste
        = some "QA" ∧
    (create_payment (some "tk") 0 (some anaRequest890)
        (UpstreamResult.resp 200 ""
          (Except.ok { emptyGhost with
              pix := some { qrcode := some "QA", qrCode := some "QB", text := none } }))).1.success
        = true :=
  c6_qr_priority "tk" 0 anaRequest890 anaCustomer 890 200 ""
    { emptyGhost with
        pix := some { qrcode := some "QA", qrCode := some "QB", text := none } }
    { qrcode := some "QA", qrCode := some "QB", text := none } "QA"
    rfl rfl rfl rfl (by decide) (Or.inl rfl) rfl (by decide)

/-- Claim C8 counterexample: on an upstream 418 with an empty raw body, the
details field is the fixed fallback string Sem resposta, which is not a
truncation of the (empty) upstream body. -/
theorem c8_counterexample :
    (create_payment (some "tk") 0 (some anaRequestNoAmount)
        (UpstreamResult.resp 418 "" (Except.ok emptyGhost))).1.httpStatus = 418 ∧
    (create_payment (some "tk") 0 (some anaRequestNoAmount)
        (UpstreamResult.resp 418 "" (Except.ok emptyGhost))).1.details = some "Sem resposta" ∧
    pySlice "" 200 ≠ "Sem resposta" := by
  exact ⟨rfl, rfl, by decide⟩

/-- Claim C8 (amended): on any upstream status other than 200 and 201, the
service answers with that same status and an error body whose details field is
the first 200 characters of the raw upstream body when that body is non-empty,
and the fixed fallback string Sem resposta when the body is empty; the
truncation never exceeds 200 characters. -/
theorem c8_upstream_error_truncation (tok : String) (now : Nat)
    (data : PaymentRequest) (c : Customer) (n : Int) (st : Nat) (text : String)
    (jb : Except String GhostResponse)
    (hc : data.customer = some c)
    (hname : pyTruthyStr c.name = true) (hemail : pyTruthyStr c.email = true)
    (ha : data.amount = some (JVal.jint n)) (h100 : ¬ n < 100)
    (hst : st ≠ 200 ∧ st ≠ 201) :
    (create_payment (some tok) now (some data)
        (UpstreamResult.resp st text jb)).1.httpStatus = st ∧
    (create_payment (some tok) now (some data)
        (UpstreamResult.resp st text jb)).1.error = true ∧
    (create_payment (some tok) now (some data)
        (UpstreamResult.resp st text jb)).1.details =
      some (if text.isEmpty then "Sem resposta" else pySlice text 200) ∧
    (pySlice text 200).length ≤ 200 := by
  refine ⟨?_, ?_, ?_, pySlice_length_le text 200⟩ <;>
    simp [create_payment, hc, hname, hemail, ha, pyLtInt,
      decide_eq_false h100, hst.1, hst.2]

/-- Claim C8 witness: the amended theorem evaluated on an upstream 500 whose
raw body is the string HELLO. -/
theorem c8_upstream_error_truncation_witness :
    (create_payment (some "tk") 0 (some anaRequest890)
        (UpstreamResult.resp 500 "HELLO" (Except.ok emptyGhost))).1.httpStatus = 500 ∧
    (create_payment (some "tk") 0 (some anaRequest890)
        (UpstreamResult.resp 500 "HELLO" (Except.ok emptyGhost))).1.error = true ∧
    (create_payment (some "tk") 0 (some anaRequest890)
        (UpstreamResult.resp 500 "HELLO" (Except.ok emptyGhost))).1.details =
      some (if "HELLO".isEmpty then "Sem resposta" else pySlice "HELLO" 200) ∧
    (pySlice "HELLO" 200).length ≤ 200 :=
  c8_upstream_error_truncation "tk" 0 anaRequest890 anaCustomer 890 500 "HELLO"
    (Except.ok emptyGhost) rfl rfl rfl rfl (by decide) (by decide)

/-- Claim C9: with credentials configured, check-payment answers 404 with the
not-found message on every upstream status other than 200, and on an upstream
200 whose body parses it answers success with the status, paidAt and full
transaction taken from the parsed body. -/
theorem c9_check_payment_status (tok : String) (tid : String) (st : Nat)
    (text : String) (jb : Except String GhostResponse) :
    (st ≠ 200 →
      (check_payment (some tok) tid (UpstreamResult.resp st text jb)).1.httpStatus = 404 ∧
      (check_payment (some tok) tid (UpstreamResult.resp st text jb)).1.error = true ∧
      (check_payment (some tok) tid (UpstreamResult.resp st text jb)).1.message =
        some "Transação não encontrada") ∧
    (∀ d : GhostResponse, st = 200 → jb = Except.ok d →
      (check_payment (some tok) tid (UpstreamResult.resp st text jb)).1.httpStatus = 200 ∧
      (check_payment (some tok) tid (UpstreamResult.resp st text jb)).1.success = true ∧
      (check_payment (some tok) tid (UpstreamResult.resp st text jb)).1.checkStatus = d.status ∧
      (check_payment (some tok) tid (UpstreamResult.resp st text jb)).1.paidAt = d.paidAt ∧
      (check_payment (some tok) tid (UpstreamResult.resp st text jb)).1.transaction = some d) := by
  constructor
  · intro h
    simp [check_payment, h]
  · intro d hs hj
    subst hs
    subst hj
    simp [check_payment]

/-- Claim C9 witness: the theorem evaluated on an upstream 500: the service
reports the transaction as not found. -/
theorem c9_check_payment_status_witness :
    (check_payment (some "tk") "abc123"
        (UpstreamResult.resp 500 "" (Except.ok emptyGhost))).1.httpStatus = 404 ∧
    (check_payment (some "tk") "abc123"
        (UpstreamResult.resp 500 "" (Except.ok emptyGhost))).1.error = true ∧
    (check_payment (some "tk") "abc123"
        (UpstreamResult.resp 500 "" (Except.ok emptyGhost))).1.message =
      some "Transação não encontrada" :=
  (c9_check_payment_status "tk" "abc123" 500 "" (Except.ok emptyGhost)).1 (by decide)

end VendaHoje
